import Mathlib

/-!
Shallow embedding of `zenn_user_ranking.py`: discovery of users from a
paginated popular-articles feed, per-user statistics collection, ranking
generation, CSV export and the orchestrating pipeline.

The remote HTTP API is modelled as an oracle function: the articles feed is a
function from a page number to a page response, and the per-user statistics
endpoint is a function from a username to a lookup result.  Python integers
are modelled as `Int`, JSON-optional fields as `Option`.
-/

namespace ZennRanking

/-- The tuple `(username, total_liked_count, article_count)` produced by
`ZennUserStatsCollector`. -/
abbrev UserStat := String × Int × Int

/-- The tuple `(rank, username, total_liked_count, article_count)` produced by
`RankingGenerator.generate_top_ranking`. -/
abbrev RankedEntry := Nat × String × Int × Int

/-- The sort key `lambda x: (x[1], x[2])` used in `generate_top_ranking`. -/
def statKey (s : UserStat) : Int × Int := (s.2.1, s.2.2)

/-- Lexicographic order on Python pairs of integers, as used by `sorted` when
comparing the key tuples. -/
def pairLe (p q : Int × Int) : Bool :=
  decide (p.1 < q.1) || ((p.1 == q.1) && decide (p.2 ≤ q.2))

/-- The comparison realised by `sorted(user_stats, key=lambda x: (x[1], x[2]),
reverse=True)`: `a` may come before `b` iff the key of `a` is lexicographically
at least the key of `b`. -/
def statGe (a b : UserStat) : Bool := pairLe (statKey b) (statKey a)

/-- `enumerate(xs, i)` packaged as ranked entries: the loop
`for i, (username, total_likes, article_count) in enumerate(sorted_users[:top_n], 1)`. -/
def rankFrom : Nat → List UserStat → List RankedEntry
  | _, [] => []
  | i, s :: rest => (i, s.1, s.2.1, s.2.2) :: rankFrom (i + 1) rest

/-- `RankingGenerator.generate_top_ranking`: stable-sort the stats descending
by `(total_liked_count, article_count)`, truncate to `top_n`, and attach
1-based ranks. -/
def generate_top_ranking (user_stats : List UserStat) (top_n : Nat) : List RankedEntry :=
  rankFrom 1 ((user_stats.mergeSort statGe).take top_n)

/-- The `(total_liked_count, article_count)` key of a ranked entry. -/
def entryKey (e : RankedEntry) : Int × Int := (e.2.2.1, e.2.2.2)

/-- One response of the popular-articles feed, as observed by
`discover_users_from_popular_articles`.  `exn` is a transport exception or any
exception raised while processing the page, `notOk` a non-ok HTTP status, and
`ok articles next_page` a parsed body: each article contributes its resolved
`user.username` field (`none` when the field is absent or null), and
`next_page` is the nullable next page number. -/
inductive PageResponse where
  | exn : PageResponse
  | notOk : PageResponse
  | ok : List (Option String) → Option Int → PageResponse

/-- Insertion into the discovered-users set (`discovered_users.add(username)`),
modelled as an insertion-ordered duplicate-free list. -/
def addUser (acc : List String) (u : String) : List String :=
  if u ∈ acc then acc else acc ++ [u]

/-- The body of `for article in articles:` — `username` is added only when it
is truthy, i.e. present and not the empty string. -/
def addArticleUser (acc : List String) (art : Option String) : List String :=
  match art with
  | some username => if username = "" then acc else addUser acc username
  | none => acc

/-- Processing one page's article list. -/
def addUsers (acc : List String) (articles : List (Option String)) : List String :=
  articles.foldl addArticleUser acc

/-- The `while page <= max_pages` loop of
`discover_users_from_popular_articles`, instrumented with the number of HTTP
requests issued.  `fuel` bounds how many iterations are unrolled; the third
component is `true` when the loop has actually exited within `fuel` iterations
and `false` when it is still running. -/
def discoverLoop (feed : Int → PageResponse) (maxPages : Int) :
    Nat → Int → List String → Nat → List String × Nat × Bool
  | 0, _, acc, fetched => (acc, fetched, false)
  | fuel + 1, page, acc, fetched =>
    if page ≤ maxPages then
      match feed page with
      | .exn => (acc, fetched + 1, true)
      | .notOk => (acc, fetched + 1, true)
      | .ok articles nextPage =>
        if articles.isEmpty then (acc, fetched + 1, true)
        else
          match nextPage with
          | none => (addUsers acc articles, fetched + 1, true)
          | some n => discoverLoop feed maxPages fuel n (addUsers acc articles) (fetched + 1)
    else (acc, fetched, true)

/-- `ZennUserDiscovery.discover_users_from_popular_articles`: run the page
loop from `page = 1` with an empty set. -/
def discover_users_from_popular_articles (feed : Int → PageResponse) (maxPages : Int)
    (fuel : Nat) : List String × Nat × Bool :=
  discoverLoop feed maxPages fuel 1 [] 0

/-- One response of the per-user statistics endpoint, as observed by
`collect_user_stats`.  `exn` is a transport exception or any exception while
processing, `notOk` a non-ok HTTP status, and `ok total articles` a parsed
body whose `user.total_liked_count` and `user.articles_count` fields may each
be absent. -/
inductive LookupResult where
  | exn : LookupResult
  | notOk : LookupResult
  | ok : Option Int → Option Int → LookupResult

/-- `ZennUserStatsCollector.collect_user_stats`: on any failure return
`(username, 0, 0)`; otherwise read the two fields with default `0`. -/
def collect_user_stats (lookup : String → LookupResult) (username : String) : UserStat :=
  match lookup username with
  | .exn => (username, 0, 0)
  | .notOk => (username, 0, 0)
  | .ok total articles => (username, total.getD 0, articles.getD 0)

/-- `ZennUserStatsCollector.collect_all_user_stats`: one lookup per username,
appending each result. -/
def collect_all_user_stats (lookup : String → LookupResult) (usernames : List String) :
    List UserStat :=
  usernames.map (collect_user_stats lookup)

/-- A lookup outcome that carries no usable data: a transport exception, a
non-ok HTTP status, or a body missing both statistics fields. -/
def lookupFailed : LookupResult → Prop
  | .exn => True
  | .notOk => True
  | .ok total articles => total = none ∧ articles = none

/-- The header row written by `export_to_csv`:
rank, username, total likes, article count, profile url (in Japanese). -/
def csvHeader : List String := ["順位", "ユーザー名", "総いいね数", "記事数", "ユーザーページ"]

/-- The profile url derived from a username:
`f"https://zenn.dev/{username}"`. -/
def userPageUrl (username : String) : String := "https://zenn.dev/" ++ username

/-- One data row written by `export_to_csv`. -/
def csvRow (e : RankedEntry) : List String :=
  [toString e.1, e.2.1, toString e.2.2.1, toString e.2.2.2, userPageUrl e.2.1]

/-- `RankingGenerator.export_to_csv`, as the list of rows written to the
file: the header row followed by one row per ranked entry, in order. -/
def export_to_csv (ranking : List RankedEntry) : List (List String) :=
  csvHeader :: ranking.map csvRow

/-- The average-likes display value computed by `print_top_ranking`:
`total_likes / max(article_count, 1)`, as an exact rational. -/
def avgLikes (total_likes article_count : Int) : ℚ :=
  (total_likes : ℚ) / ((max article_count 1 : Int) : ℚ)

/-- `RankingGenerator.print_top_ranking`, as the list of displayed rows: the
first `top_n` entries, each extended with its average-likes display value. -/
def print_top_ranking (ranking : List RankedEntry) (top_n : Nat) :
    List (Nat × String × Int × Int × ℚ) :=
  (ranking.take top_n).map fun e => (e.1, e.2.1, e.2.2.1, e.2.2.2, avgLikes e.2.2.1 e.2.2.2)

/-- Observable outcome of `execute_ranking_pipeline`.  `fuelOut` means the
discovery loop was still running when the unrolling fuel ran out; `noUsers`
and `noStats` are the two early returns that print an error message; `done`
records the discovered users, collected stats, ranking and exported CSV
rows. -/
inductive PipelineOutcome where
  | fuelOut : PipelineOutcome
  | noUsers : PipelineOutcome
  | noStats : PipelineOutcome
  | done : List String → List UserStat → List RankedEntry → List (List String) →
      PipelineOutcome
deriving DecidableEq

/-- The CSV contents written by a pipeline run, if any. -/
def writtenCsv : PipelineOutcome → Option (List (List String))
  | .done _ _ _ csv => some csv
  | _ => none

/-- `ZennRankingOrchestrator.execute_ranking_pipeline`: discovery, the
empty-discovery early return, collection, the empty-stats early return,
ranking generation and CSV export. -/
def execute_ranking_pipeline (feed : Int → PageResponse) (lookup : String → LookupResult)
    (discovery_pages : Int) (top_ranking : Nat) (fuel : Nat) : PipelineOutcome :=
  let d := discover_users_from_popular_articles feed discovery_pages fuel
  if d.2.2 = false then .fuelOut
  else if d.1.isEmpty then .noUsers
  else
    let stats := collect_all_user_stats lookup d.1
    if stats.isEmpty then .noStats
    else
      .done d.1 stats (generate_top_ranking stats top_ranking)
        (export_to_csv (generate_top_ranking stats top_ranking))

/-- Concrete feed for the C4 scenario: page 1 holds articles by `a` and `b`
pointing to page 2, page 2 holds articles by `b` and `c` with a null
`next_page`. -/
def scenarioFeed : Int → PageResponse := fun p =>
  if p = 1 then .ok [some "a", some "b"] (some 2)
  else if p = 2 then .ok [some "b", some "c"] none
  else .notOk

/-- Concrete feed whose every page reports `next_page = 1`: the discovery
loop keeps re-fetching page 1 forever. -/
def loopingFeed : Int → PageResponse := fun _ => .ok [some "a"] (some 1)

/-- Concrete feed for the C10 scenario: page 1 is non-empty but all its
articles have an absent or empty username, and it points to page 2. -/
def falsyFeed : Int → PageResponse := fun p =>
  if p = 1 then .ok [none, some ""] (some 2)
  else if p = 2 then .ok [some "a"] none
  else .notOk

/-- Concrete feed whose first page already fails, so discovery finds
nobody. -/
def emptyFeed : Int → PageResponse := fun _ => .notOk

lemma pairLe_total (p q : Int × Int) : (pairLe p q || pairLe q p) = true := by
  simp only [pairLe, Bool.or_eq_true, Bool.and_eq_true, decide_eq_true_eq, beq_iff_eq]
  omega

lemma pairLe_trans {p q r : Int × Int} (h1 : pairLe p q = true) (h2 : pairLe q r = true) :
    pairLe p r = true := by
  simp only [pairLe, Bool.or_eq_true, Bool.and_eq_true, decide_eq_true_eq, beq_iff_eq] at h1 h2 ⊢
  omega

lemma statGe_trans (a b c : UserStat) (h1 : statGe a b) (h2 : statGe b c) : statGe a c :=
  pairLe_trans h2 h1

lemma statGe_total (a b : UserStat) : (statGe a b || statGe b a) = true :=
  pairLe_total (statKey b) (statKey a)

lemma length_rankFrom (i : Nat) (xs : List UserStat) : (rankFrom i xs).length = xs.length := by
  induction xs generalizing i with
  | nil => rfl
  | cons s rest ih => simp [rankFrom, ih]

lemma rankFrom_get_fst (xs : List UserStat) (i j : Nat) (h : j < (rankFrom i xs).length) :
    ((rankFrom i xs).get ⟨j, h⟩).1 = i + j := by
  induction xs generalizing i j with
  | nil => simp [rankFrom] at h
  | cons s rest ih =>
    cases j with
    | zero => simp [rankFrom]
    | succ j =>
      have h' : j < (rankFrom (i + 1) rest).length := by
        simpa [rankFrom] using h
      have h2 : ((rankFrom i (s :: rest)).get ⟨j + 1, h⟩).1 =
          ((rankFrom (i + 1) rest).get ⟨j, h'⟩).1 := rfl
      rw [h2, ih (i + 1) j h']
      omega

lemma rankFrom_map_key (i : Nat) (xs : List UserStat) :
    (rankFrom i xs).map entryKey = xs.map statKey := by
  induction xs generalizing i with
  | nil => rfl
  | cons s rest ih => simp [rankFrom, entryKey, statKey, ih]

/-- The length of the ranking is `min top_n (number of stats)`. -/
lemma generate_top_ranking_length (user_stats : List UserStat) (top_n : Nat) :
    (generate_top_ranking user_stats top_n).length = min top_n user_stats.length := by
  unfold generate_top_ranking
  rw [length_rankFrom, List.length_take, List.length_mergeSort]

/-- The whole ranking is pairwise ordered by the descending composite key. -/
lemma ranking_pairwise_key (user_stats : List UserStat) (top_n : Nat) :
    (generate_top_ranking user_stats top_n).Pairwise
      (fun e f => pairLe (entryKey f) (entryKey e) = true) := by
  have hs : (user_stats.mergeSort statGe).Pairwise (fun a b => statGe a b = true) := by
    simpa using List.sorted_mergeSort statGe_trans statGe_total user_stats
  have ht : ((user_stats.mergeSort statGe).take top_n).Pairwise (fun a b => statGe a b = true) :=
    hs.sublist (List.take_sublist top_n _)
  unfold generate_top_ranking
  have hmap := rankFrom_map_key 1 ((user_stats.mergeSort statGe).take top_n)
  have hpm : List.Pairwise (fun p q => pairLe q p = true)
      ((rankFrom 1 ((user_stats.mergeSort statGe).take top_n)).map entryKey) := by
    rw [hmap, List.pairwise_map]
    simpa [statGe] using ht
  exact List.pairwise_map.mp hpm

lemma addUser_nodup {acc : List String} (u : String) (h : acc.Nodup) :
    (addUser acc u).Nodup := by
  unfold addUser
  split
  · exact h
  · next hu => simp [List.nodup_append, h, hu]

lemma addArticleUser_nodup {acc : List String} (art : Option String) (h : acc.Nodup) :
    (addArticleUser acc art).Nodup := by
  cases art with
  | none => simpa [addArticleUser] using h
  | some username =>
    by_cases hu : username = ""
    · simpa [addArticleUser, hu] using h
    · simpa [addArticleUser, hu] using addUser_nodup username h

lemma addUsers_nodup (articles : List (Option String)) :
    ∀ (acc : List String), acc.Nodup → (addUsers acc articles).Nodup := by
  induction articles with
  | nil => intro acc h; simpa [addUsers] using h
  | cons a rest ih =>
    intro acc h
    simp only [addUsers, List.foldl_cons]
    exact ih (addArticleUser acc a) (addArticleUser_nodup a h)

lemma discoverLoop_nodup (feed : Int → PageResponse) (maxPages : Int) :
    ∀ (fuel : Nat) (page : Int) (acc : List String) (fetched : Nat), acc.Nodup →
      ((discoverLoop feed maxPages fuel page acc fetched).1).Nodup
  | 0, page, acc, fetched, h => by simpa [discoverLoop] using h
  | fuel + 1, page, acc, fetched, h => by
    rw [discoverLoop]
    split
    · cases hfp : feed page with
      | exn => simpa using h
      | notOk => simpa using h
      | ok articles nextPage =>
        simp only
        split
        · simpa using h
        · cases nextPage with
          | none => simpa using addUsers_nodup articles acc h
          | some n =>
            exact discoverLoop_nodup feed maxPages fuel n (addUsers acc articles)
              (fetched + 1) (addUsers_nodup articles acc h)
    · simpa using h

/-- Claim C1: `generate_top_ranking` sorts the stats descending by the
composite key `(total_liked_count, article_count)`: for consecutive output
entries the key of entry `i` is lexicographically at least the key of entry
`i + 1`; in particular for stats
`[("x",50,5), ("y",50,10), ("z",100,1)]` and `top_n = 2` the ranking is
`[(1,"z",100,1), (2,"y",50,10)]`. -/
theorem generate_top_ranking_sorted :
    (∀ (user_stats : List UserStat) (top_n i : Nat)
        (h : i + 1 < (generate_top_ranking user_stats top_n).length),
      pairLe (entryKey ((generate_top_ranking user_stats top_n).get ⟨i + 1, h⟩))
             (entryKey ((generate_top_ranking user_stats top_n).get
               ⟨i, Nat.lt_of_succ_lt h⟩)) = true)
    ∧ generate_top_ranking [("x", 50, 5), ("y", 50, 10), ("z", 100, 1)] 2
        = [(1, "z", 100, 1), (2, "y", 50, 10)] := by
  constructor
  · intro user_stats top_n i h
    have hp := ranking_pairwise_key user_stats top_n
    rw [List.pairwise_iff_get] at hp
    exact hp ⟨i, Nat.lt_of_succ_lt h⟩ ⟨i + 1, h⟩ (Nat.lt_succ_self i)
  · simp [generate_top_ranking, List.mergeSort, statGe, statKey, pairLe, rankFrom]

/-- Witness for C1 at the concrete scenario input. -/
theorem generate_top_ranking_sorted_witness :
    pairLe (entryKey ((generate_top_ranking
        [("x", 50, 5), ("y", 50, 10), ("z", 100, 1)] 2).get
          ⟨1, by rw [generate_top_ranking_length]; decide⟩))
      (entryKey ((generate_top_ranking
        [("x", 50, 5), ("y", 50, 10), ("z", 100, 1)] 2).get
          ⟨0, by rw [generate_top_ranking_length]; decide⟩)) = true :=
  generate_top_ranking_sorted.1 [("x", 50, 5), ("y", 50, 10), ("z", 100, 1)] 2 0
    (by rw [generate_top_ranking_length]; decide)

/-- Claim C2: for every list of stats and every `top_n`, the ranking returned
by `generate_top_ranking` has length exactly `min top_n (len stats)`. -/
theorem generate_top_ranking_length_spec (user_stats : List UserStat) (top_n : Nat) :
    (generate_top_ranking user_stats top_n).length = min top_n user_stats.length :=
  generate_top_ranking_length user_stats top_n

/-- Claim C3: the rank fields of the entries returned by
`generate_top_ranking` are exactly `1 .. len ranking` in order: the entry at
0-based position `j` carries rank `j + 1` (1-based, strictly increasing, no
gaps, no two entries share a rank). -/
theorem generate_top_ranking_rank_spec (user_stats : List UserStat) (top_n j : Nat)
    (h : j < (generate_top_ranking user_stats top_n).length) :
    ((generate_top_ranking user_stats top_n).get ⟨j, h⟩).1 = j + 1 := by
  have h' : j < (rankFrom 1 ((user_stats.mergeSort statGe).take top_n)).length := h
  have := rankFrom_get_fst ((user_stats.mergeSort statGe).take top_n) 1 j h'
  calc ((generate_top_ranking user_stats top_n).get ⟨j, h⟩).1
      = ((rankFrom 1 ((user_stats.mergeSort statGe).take top_n)).get ⟨j, h'⟩).1 := rfl
    _ = 1 + j := this
    _ = j + 1 := Nat.add_comm 1 j

/-- Witness for C3 at the concrete scenario input. -/
theorem generate_top_ranking_rank_witness :
    ((generate_top_ranking [("x", 50, 5), ("y", 50, 10), ("z", 100, 1)] 2).get
        ⟨1, by rw [generate_top_ranking_length]; decide⟩).1 = 1 + 1 :=
  generate_top_ranking_rank_spec [("x", 50, 5), ("y", 50, 10), ("z", 100, 1)] 2 1
    (by rw [generate_top_ranking_length]; decide)

/-- Claim C4: for every feed the discovered set never contains duplicate
usernames, no matter how often a username appears within or across pages; and
for pages with users `a, b` then `b, c` followed by a null `next_page`, the
resulting set is exactly `a, b, c`. -/
theorem discover_users_nodup :
    (∀ (feed : Int → PageResponse) (maxPages : Int) (fuel : Nat),
      ((discover_users_from_popular_articles feed maxPages fuel).1).Nodup)
    ∧ (discover_users_from_popular_articles scenarioFeed 50 5).1 = ["a", "b", "c"] := by
  constructor
  · intro feed maxPages fuel
    exact discoverLoop_nodup feed maxPages fuel 1 [] 0 List.nodup_nil
  · decide

lemma discoverLoop_finishes (feed : Int → PageResponse) (maxPages : Int)
    (hinc : ∀ (p : Int) (a : List (Option String)) (n : Int),
      feed p = .ok a (some n) → p < n) :
    ∀ (fuel : Nat) (page : Int) (acc : List String) (fetched : Nat),
      (maxPages + 1 - page).toNat < fuel →
      (discoverLoop feed maxPages fuel page acc fetched).2.2 = true
  | 0, page, acc, fetched, h => by omega
  | fuel + 1, page, acc, fetched, h => by
    simp only [discoverLoop]
    split
    · next hple =>
      cases hfp : feed page with
      | exn => rfl
      | notOk => rfl
      | ok articles nextPage =>
        simp only
        split
        · rfl
        · cases nextPage with
          | none => rfl
          | some n =>
            have hn := hinc page articles n hfp
            exact discoverLoop_finishes feed maxPages hinc fuel n (addUsers acc articles)
              (fetched + 1) (by omega)
    · rfl

lemma discoverLoop_fetched_le (feed : Int → PageResponse) (maxPages : Int)
    (hinc : ∀ (p : Int) (a : List (Option String)) (n : Int),
      feed p = .ok a (some n) → p < n) :
    ∀ (fuel : Nat) (page : Int) (acc : List String) (fetched : Nat),
      (discoverLoop feed maxPages fuel page acc fetched).2.1 ≤
        fetched + (maxPages + 1 - page).toNat
  | 0, page, acc, fetched => by simp [discoverLoop]
  | fuel + 1, page, acc, fetched => by
    simp only [discoverLoop]
    split
    · next hple =>
      cases hfp : feed page with
      | exn => simp; omega
      | notOk => simp; omega
      | ok articles nextPage =>
        simp only
        split
        · simp; omega
        · cases nextPage with
          | none => simp; omega
          | some n =>
            dsimp only
            have hn := hinc page articles n hfp
            have hrec := discoverLoop_fetched_le feed maxPages hinc fuel n
              (addUsers acc articles) (fetched + 1)
            omega
    · simp

/-- Counterexample to claim C6: with `max_pages = 1` and a feed that always
reports `next_page = 1`, three unrolled iterations of the discovery loop have
already issued 3 requests — more than `max_pages` — and the loop is still
running. -/
theorem discovery_exceeds_max_pages_counterexample :
    (discover_users_from_popular_articles loopingFeed 1 3).2.1 = 3 ∧
    (discover_users_from_popular_articles loopingFeed 1 3).2.2 = false := by
  decide

/-- Claim C6 (amended): provided every ok page reports a `next_page` greater
than the page just fetched, the discovery loop terminates within the fuel
bound and fetches at most `max_pages` pages; unconditionally, it stops early
— returning the set accumulated so far — on a non-ok response, on an
exception, on an empty article list, and on a null `next_page`. -/
theorem discovery_termination_spec :
    (∀ (feed : Int → PageResponse) (maxPages : Int) (fuel : Nat),
      (∀ (p : Int) (a : List (Option String)) (n : Int),
        feed p = .ok a (some n) → p < n) →
      maxPages.toNat < fuel →
      (discover_users_from_popular_articles feed maxPages fuel).2.2 = true ∧
      (discover_users_from_popular_articles feed maxPages fuel).2.1 ≤ maxPages.toNat)
    ∧ (∀ (feed : Int → PageResponse) (maxPages page : Int) (acc : List String)
        (fetched fuel : Nat), page ≤ maxPages → feed page = .notOk →
        discoverLoop feed maxPages (fuel + 1) page acc fetched = (acc, fetched + 1, true))
    ∧ (∀ (feed : Int → PageResponse) (maxPages page : Int) (acc : List String)
        (fetched fuel : Nat), page ≤ maxPages → feed page = .exn →
        discoverLoop feed maxPages (fuel + 1) page acc fetched = (acc, fetched + 1, true))
    ∧ (∀ (feed : Int → PageResponse) (maxPages page : Int) (acc : List String)
        (fetched fuel : Nat) (articles : List (Option String)) (np : Option Int),
        page ≤ maxPages → feed page = .ok articles np → articles.isEmpty = true →
        discoverLoop feed maxPages (fuel + 1) page acc fetched = (acc, fetched + 1, true))
    ∧ (∀ (feed : Int → PageResponse) (maxPages page : Int) (acc : List String)
        (fetched fuel : Nat) (articles : List (Option String)),
        page ≤ maxPages → feed page = .ok articles none → articles.isEmpty = false →
        discoverLoop feed maxPages (fuel + 1) page acc fetched =
          (addUsers acc articles, fetched + 1, true)) := by
  refine ⟨?_, ?_, ?_, ?_, ?_⟩
  · intro feed maxPages fuel hinc hfuel
    constructor
    · exact discoverLoop_finishes feed maxPages hinc fuel 1 [] 0 (by omega)
    · have := discoverLoop_fetched_le feed maxPages hinc fuel 1 [] 0
      simp only [discover_users_from_popular_articles]
      omega
  · intro feed maxPages page acc fetched fuel h1 h2
    simp [discoverLoop, h1, h2]
  · intro feed maxPages page acc fetched fuel h1 h2
    simp [discoverLoop, h1, h2]
  · intro feed maxPages page acc fetched fuel articles np h1 h2 h3
    simp [discoverLoop, h1, h2, h3]
  · intro feed maxPages page acc fetched fuel articles h1 h2 h3
    simp [discoverLoop, h1, h2, h3]

/-- Witness for the amended C6 at the concrete two-page scenario feed. -/
theorem discovery_termination_spec_witness :
    (discover_users_from_popular_articles scenarioFeed 50 51).2.2 = true ∧
    (discover_users_from_popular_articles scenarioFeed 50 51).2.1 ≤ (50 : Int).toNat :=
  discovery_termination_spec.1 scenarioFeed 50 51
    (by
      intro p a n h
      unfold scenarioFeed at h
      split_ifs at h with h1 h2
      all_goals first
        | (injection h with ha hn
           injection hn with hn2
           omega)
        | (injection h with ha hn
           exact Option.noConfusion hn))
    (by decide)

lemma addUsers_falsy : ∀ (articles : List (Option String)) (acc : List String),
    (∀ a ∈ articles, a = none ∨ a = some "") → addUsers acc articles = acc
  | [], _, _ => rfl
  | a :: rest, acc, h => by
    have ha := h a (List.mem_cons_self a rest)
    have hr : ∀ x ∈ rest, x = none ∨ x = some "" :=
      fun x hx => h x (List.mem_cons_of_mem a hx)
    have step : addArticleUser acc a = acc := by
      rcases ha with h1 | h1 <;> subst h1 <;> simp [addArticleUser]
    calc addUsers acc (a :: rest) = addUsers (addArticleUser acc a) rest := rfl
      _ = addUsers acc rest := by rw [step]
      _ = acc := addUsers_falsy rest acc hr

/-- Claim C10: an article whose `user.username` is absent, null or empty
contributes nothing to the discovered set, and a page consisting only of such
articles still counts as non-empty: in the scenario, page 1 holds only falsy
usernames yet discovery proceeds to page 2, ending with 2 pages fetched and
exactly the user `a`. -/
theorem discovery_falsy_usernames_spec :
    (∀ (acc : List String) (articles : List (Option String)),
      (∀ a ∈ articles, a = none ∨ a = some "") → addUsers acc articles = acc)
    ∧ discover_users_from_popular_articles falsyFeed 50 5 = (["a"], 2, true) := by
  exact ⟨fun acc articles h => addUsers_falsy articles acc h, by decide⟩

/-- Witness for C10 at a concrete falsy article list. -/
theorem discovery_falsy_usernames_witness :
    (∀ a ∈ ([none, some ""] : List (Option String)), a = none ∨ a = some "") ∧
    addUsers ["x"] [none, some ""] = ["x"] :=
  ⟨by decide, discovery_falsy_usernames_spec.1 ["x"] [none, some ""] (by decide)⟩

lemma collect_user_stats_fst (lookup : String → LookupResult) (u : String) :
    (collect_user_stats lookup u).1 = u := by
  cases h : lookup u <;> simp [collect_user_stats, h]

/-- Claim C5: a failed per-user lookup (non-ok HTTP, transport exception, or
a body carrying no statistics fields) degrades to `(username, 0, 0)`, and the
collector always returns exactly one stat per input username, in order —
collection never aborts because of one user's failure. -/
theorem collect_stats_failure_spec :
    (∀ (lookup : String → LookupResult) (u : String), lookupFailed (lookup u) →
      collect_user_stats lookup u = (u, 0, 0))
    ∧ (∀ (lookup : String → LookupResult) (usernames : List String),
      (collect_all_user_stats lookup usernames).map (fun s => s.1) = usernames) := by
  constructor
  · intro lookup u h
    cases hl : lookup u with
    | exn => simp [collect_user_stats, hl]
    | notOk => simp [collect_user_stats, hl]
    | ok t a =>
      rw [hl] at h
      simp only [lookupFailed] at h
      obtain ⟨ht, ha⟩ := h
      subst ht
      subst ha
      simp [collect_user_stats, hl]
  · intro lookup usernames
    induction usernames with
    | nil => rfl
    | cons u us ih =>
      simp only [collect_all_user_stats, List.map_cons, collect_user_stats_fst]
      simp only [collect_all_user_stats] at ih
      rw [ih]

/-- Witness for C5: an HTTP 404 lookup for `u1` yields `("u1", 0, 0)`. -/
theorem collect_stats_failure_witness :
    lookupFailed ((fun _ => LookupResult.notOk) "u1") ∧
    collect_user_stats (fun _ => LookupResult.notOk) "u1" = ("u1", 0, 0) :=
  ⟨trivial, collect_stats_failure_spec.1 (fun _ => LookupResult.notOk) "u1" trivial⟩

/-- Counterexample to claim C7: the header row actually written is the
Japanese one, not `rank, username, total_liked_count, article_count,
profile_url`. -/
theorem export_header_counterexample :
    (export_to_csv []).head? = some csvHeader ∧
    csvHeader ≠ ["rank", "username", "total_liked_count", "article_count", "profile_url"] := by
  decide

lemma get_map {α β : Type} (f : α → β) (l : List α) (i : Nat)
    (h : i < (l.map f).length) (h2 : i < l.length) :
    (l.map f).get ⟨i, h⟩ = f (l.get ⟨i, h2⟩) := by
  simp [List.get_eq_getElem, List.getElem_map]

/-- Claim C7 (amended): the CSV export writes one header row — with the
fields rank, username, total likes, article count, profile url in that order,
but named in Japanese (`順位, ユーザー名, 総いいね数, 記事数, ユーザーページ`) —
followed by one row per ranked entry in rank order, whose profile url is the
username concatenated onto the fixed base URL. -/
theorem export_to_csv_spec :
    (∀ ranking : List RankedEntry, (export_to_csv ranking).length = ranking.length + 1)
    ∧ (∀ ranking : List RankedEntry, (export_to_csv ranking).head? = some csvHeader)
    ∧ (∀ (ranking : List RankedEntry) (i : Nat) (h : i < ranking.length),
        (export_to_csv ranking).get ⟨i + 1, by simp [export_to_csv]; omega⟩ =
          [toString ((ranking.get ⟨i, h⟩).1), (ranking.get ⟨i, h⟩).2.1,
           toString ((ranking.get ⟨i, h⟩).2.2.1), toString ((ranking.get ⟨i, h⟩).2.2.2),
           "https://zenn.dev/" ++ (ranking.get ⟨i, h⟩).2.1]) := by
  refine ⟨?_, ?_, ?_⟩
  · intro ranking; simp [export_to_csv]
  · intro ranking; rfl
  · intro ranking i h
    have hmap : i < (ranking.map csvRow).length := by simpa using h
    have hstep : (export_to_csv ranking).get ⟨i + 1, by simp [export_to_csv]; omega⟩ =
        (ranking.map csvRow).get ⟨i, hmap⟩ := rfl
    rw [hstep, get_map csvRow ranking i hmap h]
    simp [csvRow, userPageUrl]

/-- Witness for the amended C7 at a one-entry ranking. -/
theorem export_to_csv_spec_witness :
    (0 : Nat) < ([((1 : Nat), "z", (100 : Int), (1 : Int))] : List RankedEntry).length ∧
    (export_to_csv [((1 : Nat), "z", (100 : Int), (1 : Int))]).get ⟨0 + 1, by decide⟩ =
      [toString (1 : Nat), "z", toString (100 : Int), toString (1 : Int),
       "https://zenn.dev/" ++ "z"] :=
  ⟨by decide, export_to_csv_spec.2.2 [((1 : Nat), "z", (100 : Int), (1 : Int))] 0 (by decide)⟩

/-- Counterexample to claim C8: when discovery finds no users the pipeline
returns early through its `"エラー: ユーザーが発見されませんでした。"` branch —
no CSV, not even a header-only one, is written. -/
theorem pipeline_empty_discovery_counterexample :
    execute_ranking_pipeline emptyFeed (fun _ => LookupResult.exn) 50 100 1 =
      PipelineOutcome.noUsers ∧
    writtenCsv (execute_ranking_pipeline emptyFeed (fun _ => LookupResult.exn) 50 100 1) =
      none := by
  decide

/-- Claim C8 (amended): each stage handles emptiness without error — the
collector maps an empty set to empty stats, the generator maps empty stats to
an empty ranking, and exporting an empty ranking writes a header-only CSV —
but the pipeline itself, on an empty discovery, returns early with an error
message and never invokes them, exiting cleanly without writing a CSV. -/
theorem pipeline_empty_discovery_spec :
    (∀ lookup : String → LookupResult, collect_all_user_stats lookup [] = [])
    ∧ (∀ top_n : Nat, generate_top_ranking [] top_n = [])
    ∧ (export_to_csv [] = [csvHeader])
    ∧ (∀ (feed : Int → PageResponse) (lookup : String → LookupResult) (dp : Int)
        (tn fuel : Nat),
        (discover_users_from_popular_articles feed dp fuel).2.2 = true →
        (discover_users_from_popular_articles feed dp fuel).1 = [] →
        execute_ranking_pipeline feed lookup dp tn fuel = PipelineOutcome.noUsers) := by
  refine ⟨fun _ => rfl, ?_, rfl, ?_⟩
  · intro top_n
    simp [generate_top_ranking, rankFrom]
  · intro feed lookup dp tn fuel h1 h2
    simp [execute_ranking_pipeline, h1, h2]

/-- Witness for the amended C8 at a feed whose first page already fails. -/
theorem pipeline_empty_discovery_witness :
    (discover_users_from_popular_articles emptyFeed 50 1).2.2 = true ∧
    (discover_users_from_popular_articles emptyFeed 50 1).1 = [] ∧
    execute_ranking_pipeline emptyFeed (fun _ => LookupResult.exn) 50 100 1 =
      PipelineOutcome.noUsers :=
  ⟨by decide, by decide,
    pipeline_empty_discovery_spec.2.2.2 emptyFeed (fun _ => LookupResult.exn) 50 100 1
      (by decide) (by decide)⟩

lemma map_quad_id (l : List RankedEntry) :
    l.map (fun e => (e.1, e.2.1, e.2.2.1, e.2.2.2)) = l := by
  induction l with
  | nil => rfl
  | cons e rest ih =>
    obtain ⟨a, b, c, d⟩ := e
    simp [ih]

/-- Claim C9: the average-likes display uses the safe denominator
`max(article_count, 1)` — never zero, so multiplying the displayed average
back by it recovers the exact total, and an entry with zero articles displays
its raw total — and the substitution leaves the stored `total_liked_count`
and `article_count` of every displayed row unchanged. -/
theorem print_ranking_safe_denominator :
    (∀ total articles : Int,
      avgLikes total articles * ((max articles 1 : Int) : ℚ) = (total : ℚ))
    ∧ (∀ total : Int, avgLikes total 0 = (total : ℚ))
    ∧ (∀ (ranking : List RankedEntry) (top_n : Nat),
        (print_top_ranking ranking top_n).map (fun r => (r.1, r.2.1, r.2.2.1, r.2.2.2.1)) =
          ranking.take top_n) := by
  refine ⟨?_, ?_, ?_⟩
  · intro total articles
    have hne : ((max articles 1 : Int) : ℚ) ≠ 0 := by
      have h1 : (max articles 1 : Int) ≠ 0 := by
        have := le_max_right articles (1 : Int)
        omega
      exact_mod_cast h1
    unfold avgLikes
    rw [div_mul_cancel₀ _ hne]
  · intro total
    simp [avgLikes]
  · intro ranking top_n
    unfold print_top_ranking
    rw [List.map_map]
    have : ((fun (r : Nat × String × Int × Int × ℚ) => (r.1, r.2.1, r.2.2.1, r.2.2.2.1)) ∘
        (fun (e : RankedEntry) => (e.1, e.2.1, e.2.2.1, e.2.2.2, avgLikes e.2.2.1 e.2.2.2))) =
        fun (e : RankedEntry) => (e.1, e.2.1, e.2.2.1, e.2.2.2) := rfl
    rw [this, map_quad_id]

end ZennRanking
